import Mathlib

/-!
Verification of the Unthinkable-Meeting-Summarizer repository.

This file gives a shallow embedding, in Lean 4, of the parts of the Django
application relevant to the frozen claims:

* `meetings/models.py` — the `Meeting`, `Transcript`, `Summary` and
  `ActionItem` records (status values, word-count recomputation on save,
  the `ActionItem.Meta` display ordering);
* `meetings/services/transcription_service.py` —
  `TranscriptionService.validate_audio_file` and `transcribe_audio`;
* `meetings/services/summarization_service.py` —
  `SummarizationService.generate_summary` (input validation, three-attempt
  retry loop, direct-then-extracted JSON parsing, structure validation,
  fallback result), `extract_action_items`, `validate_summary_structure`;
* `meetings/services/processing_service.py` —
  `ProcessingService.process_meeting` (the pipeline state machine and its
  exception handlers);
* `meetings/views.py` — `get_meeting_status` (the status-polling endpoint).

External collaborators are modelled at their boundary: the Whisper/LLM API
calls are parameters (their outcome is an input of the embedded pipeline),
the filesystem is a record of facts about the one path being validated, and
`json.loads` is embedded as an executable recursive-descent parser for the
JSON grammar (numbers are kept as their literal text, since no claim
inspects numeric values).
-/

namespace MeetingSummarizer

/-! ## JSON values and `json.loads`

`Json` models the Python values produced by `json.loads`: `null`, booleans,
numbers (kept as their literal source text), strings, lists and dicts.
Dicts are association lists in source order; lookup is last-occurrence-wins,
matching how `json.loads` builds a Python `dict` from duplicate keys. -/

inductive Json where
  | null : Json
  | bool (b : Bool) : Json
  | num (lit : String) : Json
  | str (s : String) : Json
  | arr (elems : List Json) : Json
  | obj (fields : List (String × Json)) : Json

/-- Last-occurrence-wins lookup in an association list, matching the value a
Python `dict` built from these pairs would hold at the key. -/
def lookupLast (k : String) : List (String × Json) → Option Json
  | [] => none
  | (k', v) :: rest =>
    match lookupLast k rest with
    | some r => some r
    | none => if k' = k then some v else none

/-- Lookup `d[k]` as an `Option`; `none` when `d` is not a dict or the key is
absent, so `(jget? d k).isSome` is Python's `k in d` for dicts. -/
def jget? (d : Json) (k : String) : Option Json :=
  match d with
  | .obj fields => lookupLast k fields
  | _ => none

/-- Python `d.get(k, default)`. -/
def jgetD (d : Json) (k : String) (default : Json) : Json :=
  (jget? d k).getD default

/-- The whitespace characters `json.loads` skips between tokens. -/
def isJsonWs (c : Char) : Bool :=
  c = ' ' || c = '\t' || c = '\n' || c = '\r'

def skipWs : List Char → List Char
  | [] => []
  | c :: cs => if isJsonWs c then skipWs cs else c :: cs

def hexVal? (c : Char) : Option Nat :=
  if '0' ≤ c ∧ c ≤ '9' then some (c.toNat - '0'.toNat)
  else if 'a' ≤ c ∧ c ≤ 'f' then some (c.toNat - 'a'.toNat + 10)
  else if 'A' ≤ c ∧ c ≤ 'F' then some (c.toNat - 'A'.toNat + 10)
  else none

/-- Body of a JSON string after the opening quote: returns the decoded
content and the input remaining after the closing quote. Strict mode, as in
`json.loads`: unescaped control characters are rejected. -/
def parseStringBody : List Char → Option (List Char × List Char)
  | [] => none
  | '"' :: rest => some ([], rest)
  | '\\' :: e :: rest =>
    match e with
    | '"' => (parseStringBody rest).map (fun (b, r) => ('"' :: b, r))
    | '\\' => (parseStringBody rest).map (fun (b, r) => ('\\' :: b, r))
    | '/' => (parseStringBody rest).map (fun (b, r) => ('/' :: b, r))
    | 'b' => (parseStringBody rest).map (fun (b, r) => ('\x08' :: b, r))
    | 'f' => (parseStringBody rest).map (fun (b, r) => ('\x0c' :: b, r))
    | 'n' => (parseStringBody rest).map (fun (b, r) => ('\n' :: b, r))
    | 'r' => (parseStringBody rest).map (fun (b, r) => ('\r' :: b, r))
    | 't' => (parseStringBody rest).map (fun (b, r) => ('\t' :: b, r))
    | 'u' =>
      match rest with
      | h1 :: h2 :: h3 :: h4 :: rest' =>
        match hexVal? h1, hexVal? h2, hexVal? h3, hexVal? h4 with
        | some a, some b, some c, some d =>
          let n := ((a * 16 + b) * 16 + c) * 16 + d
          (parseStringBody rest').map (fun (bd, r) => (Char.ofNat n :: bd, r))
        | _, _, _, _ => none
      | _ => none
    | _ => none
  | c :: rest =>
    if c.toNat < 32 then none
    else (parseStringBody rest).map (fun (b, r) => (c :: b, r))

def digitSpan : List Char → List Char × List Char
  | [] => ([], [])
  | c :: cs =>
    if c.isDigit then
      let (d, r) := digitSpan cs
      (c :: d, r)
    else ([], c :: cs)

/-- A JSON number literal: `-? (0 | [1-9][0-9]*) (. [0-9]+)? ([eE][+-]?[0-9]+)?`.
Returns the literal text and the remaining input. -/
def parseNumber (cs : List Char) : Option (List Char × List Char) :=
  let (sign, cs₁) :=
    match cs with
    | '-' :: r => (['-'], r)
    | _ => (([] : List Char), cs)
  match cs₁ with
  | [] => none
  | c :: _ =>
    if ¬ c.isDigit then none
    else
      let (intPart, cs₂) := digitSpan cs₁
      -- json rejects leading zeros like "012"
      if intPart.length > 1 ∧ intPart.head? = some '0' then none
      else
        let (fracPart, cs₃) :=
          match cs₂ with
          | '.' :: r =>
            let (d, r') := digitSpan r
            if d = [] then ([], cs₂) else ('.' :: d, r')
          | _ => ([], cs₂)
        if cs₃ ≠ cs₂ ∨ fracPart = [] then
          match cs₃ with
          | e :: r =>
            if e = 'e' ∨ e = 'E' then
              let (esign, r₁) :=
                match r with
                | '+' :: r' => (['+'], r')
                | '-' :: r' => (['-'], r')
                | _ => (([] : List Char), r)
              let (ed, r₂) := digitSpan r₁
              if ed = [] then none
              else some (sign ++ intPart ++ fracPart ++ e :: esign ++ ed, r₂)
            else some (sign ++ intPart ++ fracPart, cs₃)
          | [] => some (sign ++ intPart ++ fracPart, cs₃)
        else none

mutual

/-- One JSON value (fuel-indexed recursive descent). -/
def parseValue : Nat → List Char → Option (Json × List Char)
  | 0, _ => none
  | f + 1, cs =>
    match skipWs cs with
    | [] => none
    | 't' :: 'r' :: 'u' :: 'e' :: r => some (.bool true, r)
    | 'f' :: 'a' :: 'l' :: 's' :: 'e' :: r => some (.bool false, r)
    | 'n' :: 'u' :: 'l' :: 'l' :: r => some (.null, r)
    | '"' :: r => (parseStringBody r).map (fun (b, r') => (Json.str ⟨b⟩, r'))
    | '{' :: r =>
      (match skipWs r with
       | '}' :: r' => some (Json.obj [], r')
       | cs' => parseMembers f cs' [])
    | '[' :: r =>
      (match skipWs r with
       | ']' :: r' => some (Json.arr [], r')
       | cs' => parseElems f cs' [])
    | c :: r =>
      if c = '-' ∨ c.isDigit then
        (parseNumber (c :: r)).map (fun (lit, r') => (Json.num ⟨lit⟩, r'))
      else none

/-- Members of a JSON object after the opening brace (nonempty case). -/
def parseMembers : Nat → List Char → List (String × Json) → Option (Json × List Char)
  | 0, _, _ => none
  | f + 1, cs, acc =>
    match skipWs cs with
    | '"' :: r =>
      match parseStringBody r with
      | none => none
      | some (k, r₂) =>
        match skipWs r₂ with
        | ':' :: r₃ =>
          match parseValue f r₃ with
          | none => none
          | some (v, r₄) =>
            match skipWs r₄ with
            | ',' :: r₅ => parseMembers f r₅ (acc ++ [(⟨k⟩, v)])
            | '}' :: r₅ => some (Json.obj (acc ++ [(⟨k⟩, v)]), r₅)
            | _ => none
        | _ => none
    | _ => none

/-- Elements of a JSON array after the opening bracket (nonempty case). -/
def parseElems : Nat → List Char → List Json → Option (Json × List Char)
  | 0, _, _ => none
  | f + 1, cs, acc =>
    match parseValue f cs with
    | none => none
    | some (v, r) =>
      match skipWs r with
      | ',' :: r' => parseElems f r' (acc ++ [v])
      | ']' :: r' => some (Json.arr (acc ++ [v]), r')
      | _ => none

end

/-- Model of Python `json.loads`: parse one JSON value, allowing surrounding
whitespace only; trailing garbage makes the parse fail. The fuel bound
exceeds the deepest possible chain of recursive calls for the input. -/
def json_loads (s : String) : Option Json :=
  match parseValue (4 * s.data.length + 8) s.data with
  | some (v, rest) => if skipWs rest = [] then some v else none
  | none => none

/-! ## Python string and truthiness helpers -/

/-- ASCII lowercasing, as `str.lower()` acts on the ASCII priority strings
this application handles. -/
def pyLowerChar (c : Char) : Char :=
  if 'A' ≤ c ∧ c ≤ 'Z' then Char.ofNat (c.toNat + 32) else c

def pyLower (s : String) : String :=
  ⟨s.data.map pyLowerChar⟩

/-- The characters Python's `str.split()` / `str.strip()` treat as whitespace
(the ASCII ones, which is all this application ever sees). -/
def isPySpace (c : Char) : Bool :=
  c = ' ' || c = '\t' || c = '\n' || c = '\r' || c = '\x0b' || c = '\x0c'

/-- Python `not s or not s.strip()`: the string is empty or whitespace-only. -/
def pyIsBlank (s : String) : Bool :=
  s.data.all isPySpace

/-- Python slicing `s[:n]`. -/
def pyTake (n : Nat) (s : String) : String :=
  ⟨s.data.take n⟩

/-- Python `str.split()` with no argument: split on runs of whitespace, dropping
empty tokens. `acc` carries the (reversed) characters of the token being
built. -/
def pySplitAux : List Char → List Char → List (List Char)
  | [], acc => if acc = [] then [] else [acc.reverse]
  | c :: cs, acc =>
    if isPySpace c then
      if acc = [] then pySplitAux cs [] else acc.reverse :: pySplitAux cs []
    else pySplitAux cs (c :: acc)

def pySplit (s : String) : List String :=
  (pySplitAux s.data []).map fun cs => ⟨cs⟩

/-- Python truthiness of a JSON-shaped value (`if not x`). A number is falsy
exactly when its mantissa (the literal before any exponent marker) has no
nonzero digit. -/
def pyFalsy : Json → Bool
  | .null => true
  | .bool b => !b
  | .str s => s = ""
  | .arr xs => xs.isEmpty
  | .obj fs => fs.isEmpty
  | .num lit =>
    (lit.data.takeWhile (fun c => c ≠ 'e' ∧ c ≠ 'E')).all fun c => ¬('1' ≤ c ∧ c ≤ '9')

/-! ## The summarization adapter (`SummarizationService`)

`generate_summary` is embedded with the outcome of each chat-completion API
call supplied as a parameter: `responses i` is attempt `i`'s result, `none`
meaning the call raised and `some content` meaning it returned `content`.
Everything downstream of the API call (blank check, JSON parsing with the
regex-extraction fallback, structure validation, the three-attempt retry
loop, and the fallback summary) is translated from the source. -/

/-- Index of the first occurrence of `c`. -/
def firstIdxOf (c : Char) : List Char → Option Nat
  | [] => none
  | x :: xs => if x = c then some 0 else (firstIdxOf c xs).map (· + 1)

/-- Index of the last occurrence of `c`. -/
def lastIdxOf (c : Char) : List Char → Option Nat
  | [] => none
  | x :: xs =>
    match lastIdxOf c xs with
    | some i => some (i + 1)
    | none => if x = c then some 0 else none

/-- Model of `re.search(r'\{[\s\S]*\}', s)`: the leftmost match starts at the first
`{` and, the quantifier being greedy, ends at the last `}`; there is a match
exactly when some `}` occurs after the first `{`. -/
def braceSpanList (cs : List Char) : Option (List Char) :=
  match firstIdxOf '{' cs, lastIdxOf '}' cs with
  | some i, some j => if i < j then some ((cs.drop i).take (j - i + 1)) else none
  | _, _ => none

def braceSpan (s : String) : Option String :=
  (braceSpanList s.data).map fun cs => ⟨cs⟩

/-- The JSON-parsing stage of one summarization attempt: direct
`json.loads`, then on failure `re.search(r'\{[\s\S]*\}', ...)` and a parse of
the extracted span. `none` is the retryable-failure case (both raises in the
source are caught by the attempt loop). -/
def parseResponse (response_content : String) : Option Json :=
  match json_loads response_content with
  | some d => some d
  | none =>
    match braceSpan response_content with
    | some extracted => json_loads extracted
    | none => none

private def isStrJ : Json → Bool
  | .str _ => true
  | _ => false

private def isArrJ : Json → Bool
  | .arr _ => true
  | _ => false

/-- Embedding of `SummarizationService.validate_summary_structure`: the four required keys
must be present, `executive_summary` must be a string and the other three
must be lists; `participants` and `insights` are not checked at all.
(When `summary_dict` is not a dict the source's `in` test either fails or the
subsequent indexing raises inside the attempt loop; both give a failed
attempt, modelled here as `false`.) -/
def validate_summary_structure (summary_dict : Json) : Bool :=
  (jget? summary_dict "executive_summary").isSome &&
  (jget? summary_dict "key_decisions").isSome &&
  (jget? summary_dict "action_items").isSome &&
  (jget? summary_dict "discussion_topics").isSome &&
  isStrJ (jgetD summary_dict "executive_summary" .null) &&
  isArrJ (jgetD summary_dict "key_decisions" .null) &&
  isArrJ (jgetD summary_dict "action_items" .null) &&
  isArrJ (jgetD summary_dict "discussion_topics" .null)

/-- One attempt of the retry loop of `generate_summary`: `none` when the API
call raised, the response was empty/blank, JSON parsing (direct and
extracted) failed, or structure validation failed; `some d` when the attempt
produced the validated dict `d`. -/
def attemptOnce (response : Option String) : Option Json :=
  match response with
  | none => none
  | some response_content =>
    if pyIsBlank response_content then none
    else
      match parseResponse response_content with
      | none => none
      | some summary_dict =>
        if validate_summary_structure summary_dict then some summary_dict else none

/-- The `executive_summary` of the fallback result returned after all retries
fail. -/
def fallbackNotice : String :=
  "Summary generation encountered errors. The meeting transcript was processed but detailed analysis could not be completed. Please review the transcript directly."

/-- The fallback summary built when all `max_retries` attempts fail. -/
def fallback_summary : Json :=
  Json.obj
    [ ("executive_summary", .str fallbackNotice)
    , ("key_decisions", .arr [])
    , ("action_items", .arr [])
    , ("discussion_topics", .arr [])
    , ("participants", .arr [])
    , ("insights", .arr []) ]

/-- Embedding of `SummarizationService.generate_summary`. Raises `ValueError`
(`.error`) only for blank input; otherwise runs `max_retries = 3` attempts
(the bounded loop is unrolled) and falls back to `fallback_summary`. -/
def generate_summary (transcript_text : String) (responses : Nat → Option String) :
    Except String Json :=
  if pyIsBlank transcript_text then .error "Transcript text cannot be empty"
  else
    match attemptOnce (responses 0) with
    | some d => .ok d
    | none =>
      match attemptOnce (responses 1) with
      | some d => .ok d
      | none =>
        match attemptOnce (responses 2) with
        | some d => .ok d
        | none => .ok fallback_summary

/-! ## `SummarizationService.extract_action_items` -/

/-- A formatted action item as produced by `extract_action_items`:
`task`/`assignee`/`deadline` pass through as the raw JSON values, `priority`
is the normalized lowercase string. -/
structure FormattedActionItem where
  task : Json
  assignee : Json
  priority : String
  deadline : Json

/-- One iteration of the `extract_action_items` loop. `none` models an
exception propagating out of the method (`.lower()` on a non-string priority,
or a membership test on a non-container item); `some none` is an item skipped
for missing required fields; `some (some it)` is a kept item. -/
def formatItem (item : Json) : Option (Option FormattedActionItem) :=
  match item with
  | .obj _ =>
    if (jget? item "task").isSome && (jget? item "assignee").isSome &&
        (jget? item "priority").isSome then
      match jget? item "priority" with
      | some (.str p) =>
        let pl := pyLower p
        some (some
          { task := jgetD item "task" .null
          , assignee := jgetD item "assignee" (.str "Unassigned")
          , priority := if pl = "high" ∨ pl = "medium" ∨ pl = "low" then pl else "medium"
          , deadline := jgetD item "deadline" .null })
      | _ => none
    else some none
  | _ => none

/-- Embedding of `SummarizationService.extract_action_items`. Returns `none` when the
method raises (which no claim exercises); otherwise the list of kept,
formatted items in order. -/
def extract_action_items (summary_dict : Json) : Option (List FormattedActionItem) :=
  let action_items := jgetD summary_dict "action_items" (Json.arr [])
  if pyFalsy action_items then some []
  else
    match action_items with
    | .arr items => (items.mapM formatItem).map (List.filterMap id)
    | _ => none


/-! ## The data model (`meetings/models.py`) -/

/-- The `Meeting.STATUS_CHOICES` values. -/
inductive Status where
  | pending
  | processing
  | completed
  | failed
deriving DecidableEq, Repr

/-- The fields of a `Meeting` row the claims observe. `updated_at` is a
logical timestamp; every `save()` refreshes it (`auto_now=True`). -/
structure MeetingState where
  status : Status
  error_message : Option String
  duration : Option Nat
  updated_at : Nat
deriving DecidableEq, Repr

/-- The fields of a `Transcript` row relevant to the claims. -/
structure TranscriptRec where
  text : String
  word_count : Nat
deriving DecidableEq, Repr

/-- Embedding of `Transcript.save`: recompute `word_count` from `text` before persisting
(`len(self.text.split())`, or `0` for a falsy text). -/
def transcript_save (t : TranscriptRec) : TranscriptRec :=
  if t.text ≠ "" then { t with word_count := (pySplit t.text).length }
  else { t with word_count := 0 }

/-- A `Summary` row as created by the pipeline: the five informational
fields, kept as the raw JSON values handed to `Summary.objects.create`. -/
structure SummaryRec where
  executive_summary : Json
  key_decisions : Json
  discussion_topics : Json
  participants : Json
  insights : Json

/-- STEP 5 of `process_meeting`: `Summary.objects.create(...)` with
`summary_data.get(key, default)` for each field. -/
def mkSummary (summary_data : Json) : SummaryRec :=
  { executive_summary := jgetD summary_data "executive_summary" (.str "")
  , key_decisions := jgetD summary_data "key_decisions" (.arr [])
  , discussion_topics := jgetD summary_data "discussion_topics" (.arr [])
  , participants := jgetD summary_data "participants" (.arr [])
  , insights := jgetD summary_data "insights" (.arr []) }

/-- An `ActionItem` row as created by STEP 6 of the pipeline:
`title`/`task` are strings, the other fields keep the raw JSON values handed
to `ActionItem.objects.create`. -/
structure ActionItemRec where
  title : String
  task : String
  assignee : Json
  priority : Json
  deadline : Json

/-- One iteration of STEP 6 of `process_meeting`. The per-item
`try/except ... continue` makes an item whose creation raises (`.get` on a
non-dict, slicing a non-string task) be skipped, modelled as `none`. -/
def createActionItem (item_data : Json) : Option ActionItemRec :=
  match item_data with
  | .obj _ =>
    match jgetD item_data "task" (.str "") with
    | .str task_text =>
      some
        { title := if task_text ≠ "" then pyTake 300 task_text else "Untitled Task"
        , task := task_text
        , assignee := jgetD item_data "assignee" (.str "Unassigned")
        , priority := jgetD item_data "priority" (.str "medium")
        , deadline := jgetD item_data "deadline" .null }
    | _ => none
  | _ => none

/-! ## The transcription adapter (`TranscriptionService`) -/

/-- Whisper API file size limit: `25 * 1024 * 1024` bytes. -/
def MAX_FILE_SIZE : Nat := 25 * 1024 * 1024

/-- The `TranscriptionService.SUPPORTED_FORMATS` set. -/
def SUPPORTED_FORMATS : List String :=
  [".mp3", ".mp4", ".mpeg", ".mpga", ".m4a", ".wav", ".webm"]

/-- The facts about the one path being validated that
`validate_audio_file` queries from the filesystem. -/
structure FileInfo where
  pathExists : Bool
  isFile : Bool
  size : Nat
deriving DecidableEq, Repr

/-- Model of `os.path.splitext(p)[1]`: the extension starting at the last dot of the
final path component, empty when that component has only leading dots. -/
def splitextExt (p : String) : String :=
  let cs := p.data
  match lastIdxOf '.' cs with
  | none => ""
  | some di =>
    let si : Nat :=
      match lastIdxOf '/' cs with
      | none => 0
      | some s => s + 1
    if si ≤ di ∧ ((cs.drop si).take (di - si)).any (· ≠ '.') then ⟨cs.drop di⟩
    else ""

/-- Which of the four checks of `validate_audio_file` failed; the source
attaches a human-readable message to each, abstracted here to its case (the
claims only observe that the reason is non-null). -/
inductive ValidationReason where
  | notFound
  | notAFile
  | tooLarge
  | unsupportedFormat
deriving DecidableEq, Repr

/-- Embedding of `TranscriptionService.validate_audio_file`. -/
def validate_audio_file (fi : FileInfo) (file_path : String) :
    Bool × Option ValidationReason :=
  if ¬ fi.pathExists then (false, some .notFound)
  else if ¬ fi.isFile then (false, some .notAFile)
  else if fi.size > MAX_FILE_SIZE then (false, some .tooLarge)
  else if pyLower (splitextExt file_path) ∉ SUPPORTED_FORMATS then
    (false, some .unsupportedFormat)
  else (true, none)

/-- Outcome of `transcribe_audio`: the transcript text, a raised
`ValueError`, or any other exception (the source wraps transport/API errors
in a plain `Exception`). -/
inductive TranscribeResult where
  | ok (text : String)
  | valueError (reason : ValidationReason)
  | serviceError (msg : String)
deriving DecidableEq, Repr

/-- Embedding of `TranscriptionService.transcribe_audio`, with the Whisper API call's
outcome supplied as `api` (`.ok text` or `.error msg` for a transport/API
exception). -/
def transcribe_audio (fi : FileInfo) (file_path : String)
    (api : Except String String) : TranscribeResult :=
  match validate_audio_file fi file_path with
  | (false, some r) => .valueError r
  | (false, none) => .valueError .notFound
  | (true, _) =>
    match api with
    | .ok text => .ok text
    | .error e => .serviceError ("Transcription failed for " ++ file_path ++ ": " ++ e)

/-! ## The processing pipeline (`ProcessingService.process_meeting`)

The pipeline is embedded as a function of the initial `Meeting` row, the
outcomes of its effectful steps (duration probe, transcription call,
summarization call) and the current time. Database writes always succeed in
this model; the per-item `try/except` of STEP 6 is kept (`createActionItem`),
since it also catches errors that do not come from the database. -/

/-- The class of a Python exception as far as `process_meeting`'s handlers
distinguish them: `Meeting.DoesNotExist` has its own `except` clause, every
other exception falls to the catch-all `except Exception`. -/
inductive ExcKind where
  | doesNotExist
  | valueError
  | generic
deriving DecidableEq, Repr

structure PyExc where
  kind : ExcKind
  msg : String
deriving DecidableEq, Repr

/-- Outcomes of the pipeline's effectful steps.
`durationProbe` is `get_audio_duration`'s return value (`none` for a swallowed
failure or a `None` return); `transcription` is `transcribe_audio`'s outcome;
`summarization` is `generate_summary`'s outcome. -/
structure StepOutcomes where
  durationProbe : Option Nat
  transcription : Except PyExc String
  summarization : Except PyExc Json

/-- The exceptions the two service calls can actually raise.
`transcribe_audio` raises only `ValueError` or a plain `Exception`
(every other error is wrapped), and `generate_summary` raises only
`ValueError`; neither ever raises `Meeting.DoesNotExist`. -/
def wfOutcomes (o : StepOutcomes) : Prop :=
  (∀ e, o.transcription = .error e → e.kind ≠ .doesNotExist) ∧
  (∀ e, o.summarization = .error e → e.kind ≠ .doesNotExist)

/-- Everything `process_meeting` produces or persists: the final `Meeting`
row, the returned boolean, the sequence of `status` values persisted by the
`meeting.save()` calls in order, and the child rows created. -/
structure PipelineResult where
  meeting : MeetingState
  returned : Bool
  statusWrites : List Status
  transcript : Option TranscriptRec
  summary : Option SummaryRec
  actionItems : List ActionItemRec

/-- The `except` clauses of `process_meeting`: `Meeting.DoesNotExist` just
returns `False`; any other exception sets `status='failed'`, stores
`str(e)[:500]` and the refreshed timestamp, persists, and returns `False`. -/
def handleFailure (m : MeetingState) (writes : List Status)
    (tr : Option TranscriptRec) (e : PyExc) (now : Nat) : PipelineResult :=
  match e.kind with
  | .doesNotExist => ⟨m, false, writes, tr, none, []⟩
  | _ =>
    let m' := { m with status := .failed
                     , error_message := some (pyTake 500 e.msg)
                     , updated_at := now }
    ⟨m', false, writes ++ [Status.failed], tr, none, []⟩

/-- Embedding of `ProcessingService.process_meeting`. -/
def process_meeting (m : MeetingState) (o : StepOutcomes) (now : Nat) :
    PipelineResult :=
  -- STEP 1: status := 'processing', save
  let m₁ := { m with status := Status.processing, updated_at := now }
  let w₁ := [Status.processing]
  -- STEP 2: duration probe (non-fatal); `if duration:` skips 0/None
  let m₂ :=
    match o.durationProbe with
    | some d => if d ≠ 0 then { m₁ with duration := some d, updated_at := now } else m₁
    | none => m₁
  let w₂ :=
    match o.durationProbe with
    | some d => if d ≠ 0 then w₁ ++ [Status.processing] else w₁
    | none => w₁
  match o.transcription with
  | .error e => handleFailure m₂ w₂ none e now
  | .ok transcript_text =>
    if transcript_text = "" then
      handleFailure m₂ w₂ none ⟨.valueError, "Transcription returned empty text"⟩ now
    else
      -- STEP 3: create the Transcript row
      let transcript : TranscriptRec :=
        transcript_save { text := transcript_text
                        , word_count := (pySplit transcript_text).length }
      match o.summarization with
      | .error e => handleFailure m₂ w₂ (some transcript) e now
      | .ok summary_data =>
        if pyFalsy summary_data then
          handleFailure m₂ w₂ (some transcript)
            ⟨.valueError, "Summarization returned empty data"⟩ now
        else
          -- STEP 5: create the Summary row
          let summary := mkSummary summary_data
          -- STEP 6: create ActionItem rows, skipping items whose creation raises
          let action_items :=
            match jgetD summary_data "action_items" (.arr []) with
            | .arr items => items.filterMap createActionItem
            | _ => []
          -- STEP 7: status := 'completed', timestamp, save
          let m₃ := { m₂ with status := Status.completed, updated_at := now }
          ⟨m₃, true, w₂ ++ [Status.completed], some transcript, some summary,
            action_items⟩

/-- The first exception raised inside the body of `process_meeting`, if any:
a transcription failure, the empty-transcript `ValueError`, a summarization
failure, or the empty-summary `ValueError`. -/
def pipelineExc (o : StepOutcomes) : Option PyExc :=
  match o.transcription with
  | .error e => some e
  | .ok transcript_text =>
    if transcript_text = "" then some ⟨.valueError, "Transcription returned empty text"⟩
    else
      match o.summarization with
      | .error e => some e
      | .ok summary_data =>
        if pyFalsy summary_data then
          some ⟨.valueError, "Summarization returned empty data"⟩
        else none

/-! ## Display ordering of action items (`ActionItem.Meta.ordering`)

`ActionItem.Meta.ordering = ['-priority', 'deadline', '-created_at']`
(the detail view's explicit `order_by('-priority', 'deadline')` agrees on
the keys it names). `priority` is a `CharField`, so the database compares
the stored strings. -/

/-- The columns of an `ActionItem` row that the ordering reads. Deadlines
are ISO `YYYY-MM-DD` strings, whose lexicographic order is date order;
`created_at` is a logical timestamp. -/
structure ActionItemRow where
  priority : String
  deadline : Option String
  created_at : Nat
deriving DecidableEq, Repr

/-- Lexicographic (code-point-wise) string comparison, as the database
applies to a text column. -/
def strLtList : List Char → List Char → Bool
  | [], [] => false
  | [], _ :: _ => true
  | _ :: _, [] => false
  | a :: as, b :: bs =>
    if a.toNat < b.toNat then true
    else if b.toNat < a.toNat then false
    else strLtList as bs

def strLt (a b : String) : Bool := strLtList a.data b.data

/-- SQL `NULL` ordering for an ascending column (SQLite sorts NULLs first). -/
def optLtAsc : Option String → Option String → Bool
  | none, some _ => true
  | none, none => false
  | some _, none => false
  | some x, some y => strLt x y

/-- Whether `a` sorts no later than `b` under
`ordering = ['-priority', 'deadline', '-created_at']`. -/
def actionItemLe (a b : ActionItemRow) : Bool :=
  if a.priority ≠ b.priority then strLt b.priority a.priority
  else if a.deadline ≠ b.deadline then optLtAsc a.deadline b.deadline
  else b.created_at ≤ a.created_at

def insertLe (le : ActionItemRow → ActionItemRow → Bool) (x : ActionItemRow) :
    List ActionItemRow → List ActionItemRow
  | [] => [x]
  | y :: ys => if le x y then x :: y :: ys else y :: insertLe le x ys

/-- The ordered sequence of rows the database returns under the model's
`Meta.ordering` (insertion sort; the keys of the claim's instance are all
distinct, so any correct sort gives the same list). -/
def orderActionItems : List ActionItemRow → List ActionItemRow
  | [] => []
  | x :: xs => insertLe actionItemLe x (orderActionItems xs)

/-! ## The status-polling endpoint (`get_meeting_status` in views.py) -/

/-- Python `x or default` for an optional string field: `None` and `""` are
falsy. -/
def pyOrStr (x : Option String) (default : String) : String :=
  match x with
  | none => default
  | some s => if s = "" then default else s

/-- The JSON body built by `get_meeting_status`; `error_message := none`
models the key being absent from the response. -/
structure StatusResponse where
  status : Status
  percentage : Nat
  error_message : Option String
deriving DecidableEq, Repr

/-- The `percentage_map` literal in `get_meeting_status`. -/
def percentage_map : Status → Nat
  | .pending => 10
  | .processing => 50
  | .completed => 100
  | .failed => 0

/-- Embedding of `get_meeting_status` for an existing meeting. -/
def get_meeting_status (m : MeetingState) : StatusResponse :=
  { status := m.status
  , percentage := percentage_map m.status
  , error_message :=
      if m.status = .failed then
        some (pyOrStr m.error_message "Processing failed. Please try again.")
      else none }


/-! # Theorems for the frozen claims -/

/-- Specification-side count of whitespace-delimited tokens: the number of
positions that start a maximal run of non-whitespace characters. `prevSpace`
records whether the previous character was whitespace (or the start). -/
def countTokensSpec : List Char → Bool → Nat
  | [], _ => 0
  | c :: cs, prevSpace =>
    if isPySpace c then countTokensSpec cs true
    else (if prevSpace then 1 else 0) + countTokensSpec cs false

/-- The number of whitespace-delimited tokens of a string. -/
def countWords (s : String) : Nat :=
  countTokensSpec s.data true

theorem pySplitAux_length (cs : List Char) :
    ∀ acc : List Char, (pySplitAux cs acc).length =
      (if acc = [] then countTokensSpec cs true else 1 + countTokensSpec cs false) := by
  induction cs with
  | nil =>
    intro acc
    by_cases h : acc = [] <;> simp [pySplitAux, countTokensSpec, h]
  | cons c cs ih =>
    intro acc
    by_cases hsp : isPySpace c = true
    all_goals by_cases h : acc = [] <;>
      simp [pySplitAux, countTokensSpec, hsp, h, ih]
    all_goals omega

theorem pySplit_length (s : String) : (pySplit s).length = countWords s := by
  simp [pySplit, countWords, pySplitAux_length]

/-- C8: after `Transcript.save`, the stored `word_count` equals the number of
whitespace-delimited tokens of `text` (0 when the text is empty), and saving
again changes nothing (the recomputation is idempotent). -/
theorem claim8_word_count (t : TranscriptRec) :
    (transcript_save t).word_count = countWords t.text
    ∧ transcript_save (transcript_save t) = transcript_save t := by
  constructor
  · by_cases h : t.text = ""
    · simp [transcript_save, h, countWords, countTokensSpec]
    · simp [transcript_save, h, pySplit_length]
  · by_cases h : t.text = "" <;> simp [transcript_save, h]

/-- C5 (code bug): `ActionItem.Meta.ordering = ['-priority', 'deadline',
'-created_at']` sorts the `priority` column as a string, and descending
string order puts `"medium"` before `"low"` before `"high"`. On the claim's
instance the rendered order is [medium/2025-02-01, low/2025-01-01,
high/2025-03-01], not the claimed [high/2025-03-01, medium/2025-02-01,
low/2025-01-01] — contradicting the source's own comment "High priority
first". -/
theorem claim5_ordering_bug :
    orderActionItems
        [ ⟨"low", some "2025-01-01", 1⟩
        , ⟨"high", some "2025-03-01", 2⟩
        , ⟨"medium", some "2025-02-01", 3⟩ ]
      = [ ⟨"medium", some "2025-02-01", 3⟩
        , ⟨"low", some "2025-01-01", 1⟩
        , ⟨"high", some "2025-03-01", 2⟩ ]
    ∧ orderActionItems
        [ ⟨"low", some "2025-01-01", 1⟩
        , ⟨"high", some "2025-03-01", 2⟩
        , ⟨"medium", some "2025-02-01", 3⟩ ]
      ≠ [ ⟨"high", some "2025-03-01", 2⟩
        , ⟨"medium", some "2025-02-01", 3⟩
        , ⟨"low", some "2025-01-01", 1⟩ ] := by
  refine ⟨rfl, ?_⟩
  intro h
  rw [show orderActionItems
        [ ⟨"low", some "2025-01-01", 1⟩
        , ⟨"high", some "2025-03-01", 2⟩
        , ⟨"medium", some "2025-02-01", 3⟩ ]
      = [ (⟨"medium", some "2025-02-01", 3⟩ : ActionItemRow)
        , ⟨"low", some "2025-01-01", 1⟩
        , ⟨"high", some "2025-03-01", 2⟩ ] from rfl] at h
  simp [ActionItemRow.mk.injEq] at h

/-- C1 (code bug): `process_meeting` writes `status='processing'`
unconditionally at STEP 1, so invoking the pipeline on a recording whose
status is `completed` persists `processing` (and then `failed` when a step
fails) — the status graph is not forward-only under pipeline re-invocation. -/
theorem claim1_status_reversal :
    (process_meeting ⟨Status.completed, none, none, 0⟩
        ⟨none, .error ⟨.generic, "transport error"⟩, .ok (Json.obj [])⟩ 1).statusWrites
      = [Status.processing, Status.failed]
    ∧ Status.processing ≠ Status.completed ∧ Status.failed ≠ Status.completed := by
  refine ⟨rfl, by decide, by decide⟩

/-- C10: the status-polling endpoint substitutes the fixed notice for a null
or empty `error_message` exactly when the meeting is `failed`, and omits the
`error_message` key for every other status. -/
theorem claim10_error_message (m : MeetingState) :
    (m.status = .failed → m.error_message = none ∨ m.error_message = some "" →
      (get_meeting_status m).error_message = some "Processing failed. Please try again.")
    ∧ (m.status ≠ .failed → (get_meeting_status m).error_message = none) := by
  constructor
  · intro h hm
    rcases hm with h' | h' <;> simp [get_meeting_status, h, h', pyOrStr]
  · intro h
    simp [get_meeting_status, h]

theorem claim10_witness :
    (get_meeting_status ⟨Status.failed, some "", none, 0⟩).error_message
        = some "Processing failed. Please try again."
    ∧ (get_meeting_status ⟨Status.completed, none, none, 0⟩).error_message = none :=
  ⟨(claim10_error_message _).1 rfl (Or.inr rfl), (claim10_error_message _).2 (by decide)⟩

/-- C4 (code bug): the pipeline's STEP 6 persists each raw action item
directly — `priority=item_data.get('priority', 'medium')` — and never calls
`extract_action_items`, so an item with priority `"URGENT"` is stored with
priority `"URGENT"`; the normalization the claim describes exists only in
the uncalled `extract_action_items`, which would map the same item to
priority `"medium"`. -/
theorem claim4_priority_not_normalized :
    ((process_meeting ⟨Status.pending, none, none, 0⟩
        ⟨none, .ok "hello world",
          .ok (Json.obj
            [ ("executive_summary", .str "s"), ("key_decisions", .arr [])
            , ("action_items", .arr [Json.obj
                [("task", .str "t"), ("assignee", .str "a"), ("priority", .str "URGENT")]])
            , ("discussion_topics", .arr []) ])⟩ 1).actionItems.map (·.priority))
      = [Json.str "URGENT"]
    ∧ ((extract_action_items (Json.obj
          [ ("action_items", .arr [Json.obj
              [("task", .str "t"), ("assignee", .str "a"), ("priority", .str "URGENT")]]) ])).map
        (fun l => l.map (·.priority)))
      = some ["medium"]
    ∧ Json.str "URGENT" ≠ Json.str "medium" := by
  refine ⟨rfl, rfl, by simp⟩

/-- C7: `validate_audio_file` answers `(False, reason)` with a non-null
reason exactly when the path does not exist, is not a regular file, is
strictly larger than 25 MB, or has an unsupported (lowercased) extension,
and `(True, None)` otherwise; `transcribe_audio` raises `ValueError` exactly
when this validation fails. -/
theorem claim7_validation (fi : FileInfo) (p : String) (api : Except String String) :
    (((validate_audio_file fi p).1 = false ∧ (validate_audio_file fi p).2.isSome) ↔
      (fi.pathExists = false ∨ fi.isFile = false ∨ fi.size > MAX_FILE_SIZE ∨
        pyLower (splitextExt p) ∉ SUPPORTED_FORMATS))
    ∧ (validate_audio_file fi p = (true, none) ↔
      ¬(fi.pathExists = false ∨ fi.isFile = false ∨ fi.size > MAX_FILE_SIZE ∨
        pyLower (splitextExt p) ∉ SUPPORTED_FORMATS))
    ∧ ((∃ r, transcribe_audio fi p api = .valueError r) ↔
      (validate_audio_file fi p).1 = false) := by
  by_cases h1 : fi.pathExists
  · by_cases h2 : fi.isFile
    · by_cases h3 : fi.size > MAX_FILE_SIZE
      · simp [validate_audio_file, transcribe_audio, h1, h2, h3]
      · by_cases h4 : pyLower (splitextExt p) ∈ SUPPORTED_FORMATS
        · cases api <;> simp [validate_audio_file, transcribe_audio, h1, h2, h3, h4]
        · simp [validate_audio_file, transcribe_audio, h1, h2, h3, h4]
    · simp [validate_audio_file, transcribe_audio, h1, h2]
  · simp [validate_audio_file, transcribe_audio, h1]

/-- C9: `validate_summary_structure` accepts every dict whose four required
keys have the required types, no matter whether `participants`/`insights`
are present or what type they have; and STEP 5 of the pipeline persists the
`participants`/`insights` values into the Summary record unchanged. -/
theorem claim9_validate_structure (d : Json) (es : String) (kd ai dt : List Json)
    (h1 : jget? d "executive_summary" = some (.str es))
    (h2 : jget? d "key_decisions" = some (.arr kd))
    (h3 : jget? d "action_items" = some (.arr ai))
    (h4 : jget? d "discussion_topics" = some (.arr dt)) :
    validate_summary_structure d = true
    ∧ (∀ p, jget? d "participants" = some p → (mkSummary d).participants = p)
    ∧ (∀ ins, jget? d "insights" = some ins → (mkSummary d).insights = ins) := by
  refine ⟨?_, ?_, ?_⟩
  · simp [validate_summary_structure, jgetD, h1, h2, h3, h4, isStrJ, isArrJ]
  · intro p hp
    simp [mkSummary, jgetD, hp]
  · intro ins hi
    simp [mkSummary, jgetD, hi]

/-- Witness for C9: a result whose `participants` field is the non-list
`Json.str "Alice"` still validates, and the pipeline's Summary row carries
that value unchanged. -/
theorem claim9_witness :
    validate_summary_structure (Json.obj
        [ ("executive_summary", .str "s"), ("key_decisions", .arr [])
        , ("action_items", .arr []), ("discussion_topics", .arr [])
        , ("participants", .str "Alice") ]) = true
    ∧ (mkSummary (Json.obj
        [ ("executive_summary", .str "s"), ("key_decisions", .arr [])
        , ("action_items", .arr []), ("discussion_topics", .arr [])
        , ("participants", .str "Alice") ])).participants = Json.str "Alice" := by
  have h := claim9_validate_structure (Json.obj
    [ ("executive_summary", .str "s"), ("key_decisions", .arr [])
    , ("action_items", .arr []), ("discussion_topics", .arr [])
    , ("participants", .str "Alice") ]) "s" [] [] [] rfl rfl rfl rfl
  exact ⟨h.1, h.2.1 _ rfl⟩

/-- C3: `generate_summary` raises `ValueError` exactly for empty or
whitespace-only input (before any attempt runs); for any other input it
returns a result, and when all three attempts fail it returns the fixed
fallback dictionary, whose list-valued fields are all empty lists and whose
`executive_summary` is the fixed notice string. -/
theorem claim3_generate_summary (t : String) (rs : Nat → Option String) :
    ((∃ e, generate_summary t rs = .error e) ↔ pyIsBlank t = true)
    ∧ (pyIsBlank t = false →
        attemptOnce (rs 0) = none → attemptOnce (rs 1) = none → attemptOnce (rs 2) = none →
        generate_summary t rs = .ok fallback_summary)
    ∧ jget? fallback_summary "executive_summary" = some (.str fallbackNotice)
    ∧ jget? fallback_summary "key_decisions" = some (.arr [])
    ∧ jget? fallback_summary "action_items" = some (.arr [])
    ∧ jget? fallback_summary "discussion_topics" = some (.arr [])
    ∧ jget? fallback_summary "participants" = some (.arr [])
    ∧ jget? fallback_summary "insights" = some (.arr []) := by
  refine ⟨⟨?_, ?_⟩, ?_, rfl, rfl, rfl, rfl, rfl, rfl⟩
  · rintro ⟨e, he⟩
    by_cases hb : pyIsBlank t = true
    · exact hb
    · exfalso
      simp only [generate_summary, hb, Bool.false_eq_true, if_false] at he
      rcases h0 : attemptOnce (rs 0) with _ | d₀ <;> rw [h0] at he
      · rcases h1 : attemptOnce (rs 1) with _ | d₁ <;> rw [h1] at he
        · rcases h2 : attemptOnce (rs 2) with _ | d₂ <;> rw [h2] at he <;> exact nomatch he
        · exact nomatch he
      · exact nomatch he
  · intro hb
    refine ⟨"Transcript text cannot be empty", ?_⟩
    simp [generate_summary, hb]
  · intro hb h0 h1 h2
    simp [generate_summary, hb, h0, h1, h2]

/-- Witness for C3: on the non-blank transcript `"hello"` with all three API
calls failing, `generate_summary` returns the fallback summary (and raises
nothing). -/
theorem claim3_witness :
    generate_summary "hello" (fun _ => none) = .ok fallback_summary :=
  (claim3_generate_summary "hello" (fun _ => none)).2.1 rfl rfl rfl rfl

theorem pyTake_length_le (n : Nat) (s : String) : (pyTake n s).length ≤ n := by
  have h : (pyTake n s).length = (s.data.take n).length := rfl
  rw [h, List.length_take]
  omega

theorem handleFailure_spec (m : MeetingState) (w : List Status)
    (tr : Option TranscriptRec) (e : PyExc) (now : Nat)
    (hk : e.kind ≠ .doesNotExist) :
    (handleFailure m w tr e now).returned = false
    ∧ (handleFailure m w tr e now).meeting.status = .failed
    ∧ (handleFailure m w tr e now).meeting.error_message = some (pyTake 500 e.msg)
    ∧ (handleFailure m w tr e now).meeting.updated_at = now := by
  cases e with
  | mk kind msg =>
    cases kind with
    | doesNotExist => exact absurd rfl hk
    | valueError => exact ⟨rfl, rfl, rfl, rfl⟩
    | generic => exact ⟨rfl, rfl, rfl, rfl⟩

/-- C2: whenever an exception is raised inside the body of
`process_meeting` (`pipelineExc o = some e`), the pipeline catches it — its
result is total, nothing propagates — and sets `status='failed'`, stores
`str(e)[:500]` (at most 500 characters) as the error message, refreshes the
timestamp, and returns `False`. The `wfOutcomes` hypothesis records that the
two service calls never raise `Meeting.DoesNotExist` (transcription raises
only `ValueError`/`Exception`, summarization only `ValueError`), so the
catch-all `except Exception` clause is the one that handles `e`. -/
theorem claim2_failure_handling (m : MeetingState) (o : StepOutcomes) (now : Nat)
    (e : PyExc) (hwf : wfOutcomes o) (he : pipelineExc o = some e) :
    (process_meeting m o now).returned = false
    ∧ (process_meeting m o now).meeting.status = .failed
    ∧ (process_meeting m o now).meeting.error_message = some (pyTake 500 e.msg)
    ∧ (pyTake 500 e.msg).length ≤ 500
    ∧ (process_meeting m o now).meeting.updated_at = now := by
  obtain ⟨hwt, hws⟩ := hwf
  have hfail : ∀ (m' : MeetingState) (w : List Status) (tr : Option TranscriptRec)
      (hk : e.kind ≠ .doesNotExist),
      (handleFailure m' w tr e now).returned = false
      ∧ (handleFailure m' w tr e now).meeting.status = .failed
      ∧ (handleFailure m' w tr e now).meeting.error_message = some (pyTake 500 e.msg)
      ∧ (pyTake 500 e.msg).length ≤ 500
      ∧ (handleFailure m' w tr e now).meeting.updated_at = now := by
    intro m' w tr hk
    obtain ⟨a, b, c, d⟩ := handleFailure_spec m' w tr e now hk
    exact ⟨a, b, c, pyTake_length_le 500 e.msg, d⟩
  unfold pipelineExc at he
  unfold process_meeting
  rcases htr : o.transcription with et | tt
  · -- the transcription call raised
    rw [htr] at he
    simp only [Option.some.injEq] at he
    subst he
    exact hfail _ _ _ (hwt _ htr)
  · rw [htr] at he
    by_cases hemp : tt = "" <;> simp only [hemp, if_true, if_false, reduceIte] at he ⊢
    · -- empty transcript: the pipeline raises its own ValueError
      simp only [Option.some.injEq] at he
      subst he
      exact hfail _ _ _ (by simp)
    · rcases hsm : o.summarization with es | sd
      · -- the summarization call raised
        rw [hsm] at he
        simp only [Option.some.injEq] at he
        subst he
        exact hfail _ _ _ (hws _ hsm)
      · rw [hsm] at he
        by_cases hfd : pyFalsy sd = true <;>
          simp only [hfd, if_true, if_false, reduceIte] at he ⊢
        · -- falsy summary dict: the pipeline raises its own ValueError
          simp only [Option.some.injEq] at he
          subst he
          exact hfail _ _ _ (by simp)
        · exact nomatch he

/-- Witness for C2: a transcription transport error on a pending meeting
yields `returned = false`, `status = failed`, the (un-truncated, short)
message, and the refreshed timestamp. -/
theorem claim2_witness :
    (process_meeting ⟨Status.pending, none, none, 0⟩
        ⟨none, .error ⟨.generic, "boom"⟩, .ok (Json.obj [])⟩ 7).returned = false
    ∧ (process_meeting ⟨Status.pending, none, none, 0⟩
        ⟨none, .error ⟨.generic, "boom"⟩, .ok (Json.obj [])⟩ 7).meeting.status = .failed
    ∧ (process_meeting ⟨Status.pending, none, none, 0⟩
        ⟨none, .error ⟨.generic, "boom"⟩, .ok (Json.obj [])⟩ 7).meeting.error_message
        = some "boom"
    ∧ (process_meeting ⟨Status.pending, none, none, 0⟩
        ⟨none, .error ⟨.generic, "boom"⟩, .ok (Json.obj [])⟩ 7).meeting.updated_at = 7 := by
  have h := claim2_failure_handling ⟨Status.pending, none, none, 0⟩
    ⟨none, .error ⟨.generic, "boom"⟩, .ok (Json.obj [])⟩ 7 ⟨.generic, "boom"⟩
    ⟨fun e hez => by cases hez; simp, fun e hez => nomatch hez⟩ rfl
  exact ⟨h.1, h.2.1, h.2.2.1, h.2.2.2.2⟩

theorem firstIdxOf_append_cons (c : Char) (pre rest : List Char)
    (h : ∀ x ∈ pre, x ≠ c) :
    firstIdxOf c (pre ++ c :: rest) = some pre.length := by
  induction pre with
  | nil => simp [firstIdxOf]
  | cons x xs ih =>
    have hx : x ≠ c := h x (by simp)
    have ih' := ih fun y hy => h y (by simp [hy])
    simp [firstIdxOf, hx, ih']

theorem lastIdxOf_eq_none (c : Char) (post : List Char) (h : ∀ x ∈ post, x ≠ c) :
    lastIdxOf c post = none := by
  induction post with
  | nil => rfl
  | cons x xs ih =>
    have hx : x ≠ c := h x (by simp)
    have ih' := ih fun y hy => h y (by simp [hy])
    simp [lastIdxOf, ih', hx]

theorem lastIdxOf_append_of_none (c : Char) (xs post : List Char)
    (h : lastIdxOf c post = none) :
    lastIdxOf c (xs ++ post) = lastIdxOf c xs := by
  induction xs with
  | nil => simpa [lastIdxOf] using h
  | cons x xs ih => simp [lastIdxOf, ih]

theorem lastIdxOf_snoc_self (c : Char) (ys : List Char) :
    lastIdxOf c (ys ++ [c]) = some ys.length := by
  induction ys with
  | nil => simp [lastIdxOf]
  | cons y ys ih => simp [lastIdxOf, ih]

/-- The regex `\{[\s\S]*\}` applied to `pre ++ ('{'::mid ++ ['}']) ++ post`,
where `pre` has no `{` and `post` has no `}`, matches exactly the middle
segment: the leftmost match starts at the first `{` and greedily ends at the
last `}`. -/
theorem braceSpanList_extract (pre mid post : List Char)
    (hpre : ∀ x ∈ pre, x ≠ '{') (hpost : ∀ x ∈ post, x ≠ '}') :
    braceSpanList (pre ++ ('{' :: (mid ++ ['}'])) ++ post)
      = some ('{' :: (mid ++ ['}'])) := by
  have hfirst : firstIdxOf '{' (pre ++ ('{' :: (mid ++ ['}'])) ++ post)
      = some pre.length := by
    have h := firstIdxOf_append_cons '{' pre (mid ++ ['}'] ++ post) hpre
    simpa [List.append_assoc] using h
  have hlast : lastIdxOf '}' (pre ++ ('{' :: (mid ++ ['}'])) ++ post)
      = some (pre.length + mid.length + 1) := by
    have h2 := lastIdxOf_append_of_none '}' ((pre ++ '{' :: mid) ++ ['}']) post
      (lastIdxOf_eq_none '}' post hpost)
    rw [lastIdxOf_snoc_self '}' (pre ++ '{' :: mid)] at h2
    have harr : ((pre ++ '{' :: mid) ++ ['}']) ++ post
        = pre ++ ('{' :: (mid ++ ['}'])) ++ post := by
      simp [List.append_assoc]
    rw [harr] at h2
    rw [h2]
    simp [List.length_append]
    omega
  unfold braceSpanList
  rw [hfirst, hlast]
  have hlt : pre.length < pre.length + mid.length + 1 := by omega
  show (if pre.length < pre.length + mid.length + 1 then
      some (List.take (pre.length + mid.length + 1 - pre.length + 1)
        (List.drop pre.length (pre ++ ('{' :: (mid ++ ['}'])) ++ post)))
    else none) = some ('{' :: (mid ++ ['}']))
  rw [if_pos hlt]
  have hidx : pre.length + mid.length + 1 - pre.length + 1
      = ('{' :: (mid ++ ['}'])).length := by
    simp [List.length_append]
    omega
  rw [hidx]
  have hdrop : (pre ++ ('{' :: (mid ++ ['}'])) ++ post).drop pre.length
      = ('{' :: (mid ++ ['}'])) ++ post := by
    rw [List.append_assoc]
    exact List.drop_left pre _
  rw [hdrop, List.take_left]

/-- C6: for every response whose direct JSON parse fails but which is
`pre ++ j ++ post` with `j` the outermost brace-delimited span (no `{` in the
text before, no `}` in the text after) and `j` itself valid JSON, the
JSON-parsing stage of `generate_summary` extracts `j` by pattern search and
parses it; and whenever neither the direct parse nor the extracted span
parses, the attempt is a retryable failure (`attemptOnce = none`). -/
theorem claim6_json_repair (pre j post : String) (v : Json)
    (hpre : ∀ c ∈ pre.data, c ≠ '{') (hpost : ∀ c ∈ post.data, c ≠ '}')
    (hshape : ∃ mid, j.data = '{' :: (mid ++ ['}']))
    (hdirect : json_loads (pre ++ j ++ post) = none)
    (hparse : json_loads j = some v) :
    parseResponse (pre ++ j ++ post) = some v
    ∧ (∀ r : String, parseResponse r = none → attemptOnce (some r) = none) := by
  constructor
  · obtain ⟨mid, hmid⟩ := hshape
    have hspan : braceSpan (pre ++ j ++ post) = some j := by
      unfold braceSpan
      have hdata : (pre ++ j ++ post).data = pre.data ++ j.data ++ post.data := by
        simp
      rw [hdata, hmid, braceSpanList_extract pre.data mid post.data hpre hpost, ← hmid]
      rfl
    unfold parseResponse
    rw [hdirect, hspan]
    exact hparse
  · intro r hr
    unfold attemptOnce
    by_cases hb : pyIsBlank r = true <;> simp [hb, hr]

/-- The claim's example response: a valid JSON object wrapped in
conversational text before and after. -/
def repairableResponse : String :=
  "Here is the result: " ++
  "\x7b\"executive_summary\": \"ok\", \"key_decisions\": [], \"action_items\": [], \"discussion_topics\": []\x7d" ++
  " Thanks"

set_option maxRecDepth 100000 in
/-- Witness for C6: on the wrapped response, the direct parse fails and the
extracted span parses to the embedded object. -/
theorem claim6_witness :
    parseResponse repairableResponse
      = some (Json.obj
          [ ("executive_summary", .str "ok"), ("key_decisions", .arr [])
          , ("action_items", .arr []), ("discussion_topics", .arr []) ]) := by
  have h := claim6_json_repair "Here is the result: "
    "\x7b\"executive_summary\": \"ok\", \"key_decisions\": [], \"action_items\": [], \"discussion_topics\": []\x7d"
    " Thanks"
    (Json.obj
      [ ("executive_summary", .str "ok"), ("key_decisions", .arr [])
      , ("action_items", .arr []), ("discussion_topics", .arr []) ])
    (by decide) (by decide)
    ⟨(("\x7b\"executive_summary\": \"ok\", \"key_decisions\": [], \"action_items\": [], \"discussion_topics\": []\x7d" : String).data.drop 1).dropLast,
      by decide⟩
    rfl rfl
  exact h.1

/-- Witness for C7: a 100-byte existing `.mp3` file validates with no
reason, and a 26 MiB file makes `transcribe_audio` raise `ValueError`. -/
theorem claim7_witness :
    validate_audio_file ⟨true, true, 100⟩ "/a/b.mp3" = (true, none)
    ∧ ∃ r, transcribe_audio ⟨true, true, 26 * 1024 * 1024⟩ "/a/b.mp3" (.ok "text")
        = .valueError r := by
  refine ⟨?_, ?_⟩
  · exact ((claim7_validation ⟨true, true, 100⟩ "/a/b.mp3" (.ok "text")).2.1).mpr (by decide)
  · refine ((claim7_validation ⟨true, true, 26 * 1024 * 1024⟩ "/a/b.mp3"
      (.ok "text")).2.2).mpr ?_
    decide

end MeetingSummarizer
